import Mathlib

/-!
Shallow embedding of the passkey (WebAuthn) ceremony layer of the
`nuxt-auth-passkeys-example` repository.

The repository's own code consists of the ceremony callbacks
(`server/api/webauthn/authenticate.post.ts`, `server/api/webauthn/register.post.ts`),
the persistence helpers (`server/utils/user.ts`, the `useCredential` composable)
and the SQLite schema (`server/database/migrations/0000_cloudy_manta.sql`).
The surrounding handler orchestration (`defineWebAuthnAuthenticateEventHandler`,
`defineWebAuthnRegisterEventHandler` of nuxt-auth-utils) and the cryptographic
verifier (simplewebauthn) are external collaborators: they are not under the
repository's source tree, so the orchestration order and the counter-monotonicity
policy are modelled from the spec (sections 4.4, 4.5 and the data-model invariant
of section 3) where marked below.

Databases are modelled as in-memory lists standing for the SQLite tables;
`useStorage()` (the unstorage key-value store backing the challenge store) is an
association list.  Timestamps (`new Date()`, `Date.now()`) are naturals; the
`createdAt` columns are omitted because no ceremony reads them.  Potentially
failing I/O calls surface as `Except`/`Option` results.
-/

namespace Passkeys

/-- Error shape produced by `createError({ statusCode, message })` in the
handlers: a status code and a message, both visible to the caller. -/
structure ApiError where
  statusCode : Nat
  message : String
deriving DecidableEq

/-- Row of the `users` table (`id` integer primary key autoincrement,
`email` text unique).  The `name` and `created_at` columns are never read by
any ceremony and are omitted. -/
structure User where
  id : Nat
  email : String
deriving DecidableEq

/-- Row of the `authenticators` table: credential id (text, globally unique),
owning user id (foreign key), public key, signature counter, backup flag and
transports.  `created_at` is omitted as unread. -/
structure Credential where
  id : String
  userId : Nat
  publicKey : String
  counter : Nat
  backedUp : Bool
  transports : List String
deriving DecidableEq

/-- Payload passed to `setUserSession`: the resolved user and a login
timestamp (`loggedInAt`). -/
structure Session where
  user : User
  loggedInAt : Nat
deriving DecidableEq

/-- The SQLite database reachable through `useDB()`: the two tables plus the
autoincrement cursor for `users.id`. -/
structure Db where
  users : List User
  credentials : List Credential
  nextUserId : Nat
deriving DecidableEq

/-! ### Key-value storage (`useStorage()`)

The unstorage instance used by the challenge store, modelled as an association
list from keys to string values. -/

abbrev Storage := List (String × String)

/-- Model of `useStorage().setItem(key, value)`: overwrites any prior entry for
the key. -/
def setItem (s : Storage) (k v : String) : Storage :=
  (k, v) :: s.filter (fun p => p.1 != k)

/-- Model of `useStorage().getItem(key)`: the stored value, or `none`. -/
def getItem (s : Storage) (k : String) : Option String :=
  (s.find? (fun p => p.1 == k)).map (fun p => p.2)

/-- Model of `useStorage().removeItem(key)`. -/
def removeItem (s : Storage) (k : String) : Storage :=
  s.filter (fun p => p.1 != k)

/-- Key used by the authenticate endpoint for challenge storage:
`attempt:` followed by the attempt id. -/
def attemptKey (attemptId : String) : String :=
  "attempt:" ++ attemptId

/-! ### User directory (`server/utils/user.ts`, `useUser`) -/

/-- Embeds `findUserByEmail`: first `users` row whose email matches, else
`null`. -/
def findUserByEmail (db : Db) (email : String) : Option User :=
  db.users.find? (fun u => u.email == email)

/-- Embeds `findUserById`: first `users` row whose id matches, else `null`. -/
def findUserById (db : Db) (id : Nat) : Option User :=
  db.users.find? (fun u => u.id == id)

/-- Error raised by the SQLite driver when an insert violates the
`users_email_unique` index. -/
def uniqueEmailViolation : ApiError :=
  { statusCode := 400, message := "UNIQUE constraint failed: users.email" }

/-- Embeds `createUser`: inserts a row and returns it.  The unique index
`users_email_unique` makes the insert fail when the email already exists;
the autoincrement primary key assigns `nextUserId`. -/
def createUser (db : Db) (email : String) : Except ApiError (User × Db) :=
  if db.users.any (fun u => u.email == email) then
    .error uniqueEmailViolation
  else
    let user : User := { id := db.nextUserId, email := email }
    .ok (user, { db with users := db.users ++ [user], nextUserId := db.nextUserId + 1 })

/-! ### Credential registry (`useCredential`) -/

/-- Error raised when an insert violates the `authenticators_credential_id_unique`
index, i.e. the credential id is already registered; the spec's `ConflictError`. -/
def conflictError : ApiError :=
  { statusCode := 400, message := "UNIQUE constraint failed: authenticators.credential_id" }

/-- Embeds `saveCredential`: inserts the credential row; the unique index on
`credential_id` makes the insert fail when that id already exists. -/
def saveCredential (db : Db) (c : Credential) : Except ApiError Db :=
  if db.credentials.any (fun k => k.id == c.id) then
    .error conflictError
  else
    .ok { db with credentials := db.credentials ++ [c] }

/-- Embeds `findCredentialById`: first `authenticators` row whose credential id
matches, else `null`.  (The source additionally joins the owning user and
defaults a null `transports` to `[]`; the column is `NOT NULL` so the default
is the identity, and the joined user is never read by the ceremonies, which
use `credential.userId` with `findUserById` instead.) -/
def findCredentialById (db : Db) (id : String) : Option Credential :=
  db.credentials.find? (fun c => c.id == id)

/-- Embeds `findCredentialsByUserId`: all credential rows owned by the user. -/
def findCredentialsByUserId (db : Db) (userId : Nat) : List Credential :=
  db.credentials.filter (fun c => c.userId == userId)

/-- Embeds `updateCredentialCounter`: unconditional `UPDATE ... SET counter`
on every row whose credential id matches. -/
def updateCredentialCounter (db : Db) (id : String) (counter : Nat) : Db :=
  { db with
      credentials :=
        db.credentials.map (fun c => if c.id == id then { c with counter := counter } else c) }

/-! ### Authenticate endpoint callbacks
(`server/api/webauthn/authenticate.post.ts`) -/

/-- Error thrown by `allowCredentials` for a missing user and for a user with
no credentials, and by `onSuccess` when the owning user is missing. -/
def userNotFoundError : ApiError :=
  { statusCode := 400, message := "User not found" }

/-- Error thrown by `getCredential` when the asserted credential id is not
stored. -/
def passkeyNotAssociatedError : ApiError :=
  { statusCode := 400, message := "Passkey not associated with a user account" }

/-- Error thrown by `getChallenge` when no (non-empty) challenge is stored for
the attempt id. -/
def challengeExpiredError : ApiError :=
  { statusCode := 400, message := "Challenge expired" }

/-- Embeds the `allowCredentials` callback: resolve the user by email, then the
user's credentials; both a missing user and an empty credential list throw the
same `User not found` error. -/
def allowCredentials (db : Db) (userName : String) :
    Except ApiError (List Credential) :=
  match findUserByEmail db userName with
  | none => .error userNotFoundError
  | some user =>
    let allCredentials := findCredentialsByUserId db user.id
    if allCredentials.isEmpty then .error userNotFoundError
    else .ok allCredentials

/-- Embeds the `getCredential` callback: resolve the asserted credential id or
throw. -/
def getCredential (db : Db) (credentialId : String) : Except ApiError Credential :=
  match findCredentialById db credentialId with
  | none => .error passkeyNotAssociatedError
  | some credential => .ok credential

/-- Embeds the `storeChallenge` callback: store the challenge under
`attempt:` plus the attempt id. -/
def storeChallenge (storage : Storage) (challenge : String) (attemptId : String) :
    Storage :=
  setItem storage (attemptKey attemptId) challenge

/-- Embeds the `getChallenge` callback: read the stored challenge (defaulting a
missing value to the empty string, as `(... as string) || ""` does), always
remove the entry, then throw `Challenge expired` when the read value is falsy.
Returns the result together with the storage left behind. -/
def getChallenge (storage : Storage) (attemptId : String) :
    Except ApiError String × Storage :=
  let challenge := (getItem storage (attemptKey attemptId)).getD ""
  let storage1 := removeItem storage (attemptKey attemptId)
  if challenge == "" then (.error challengeExpiredError, storage1)
  else (.ok challenge, storage1)

/-- Embeds the authenticate `onSuccess` callback: persist the verifier-reported
counter with `updateCredentialCounter`, resolve the owning user, then set the
session.  `updateErr` is the outcome of the awaited counter update (the database
call can fail at the I/O level); a failure propagates as an exception before
any further step, leaving the database and session as they were.  The result is
the database, the session and the error, after the callback returns or throws. -/
def onSuccessAuth (db : Db) (session : Option Session) (credential : Credential)
    (newCounter : Nat) (now : Nat) (updateErr : Option ApiError) :
    Db × Option Session × Option ApiError :=
  match updateErr with
  | some e => (db, session, some e)
  | none =>
    let db1 := updateCredentialCounter db credential.id newCounter
    match findUserById db1 credential.userId with
    | none => (db1, session, some userNotFoundError)
    | some user => (db1, some { user := user, loggedInAt := now }, none)

/-! ### Authentication ceremony orchestration

Modelled from the spec: the handler wrapper `defineWebAuthnAuthenticateEventHandler`
and the external assertion verifier are not under the repository's source tree.
Section 4.5 gives the step order (allowed credentials when an identity is
claimed, challenge consumption, credential resolution, assertion verification
with the replay check, then `onSuccess`), and section 3 gives the
counter-monotonicity policy with the 0-on-both-sides sentinel. -/

/-- Modelled from the spec: the external verifier's `AssertionError` (bad
signature, origin mismatch), surfaced generically. -/
def assertionError : ApiError :=
  { statusCode := 400, message := "AssertionError" }

/-- Modelled from the spec: the `ReplayDetected` failure of the counter
monotonicity check. -/
def replayDetectedError : ApiError :=
  { statusCode := 400, message := "ReplayDetected" }

/-- Modelled from the spec (section 3 invariant): a verifier-reported counter is
admissible when it is strictly greater than the stored one, or when both are
the `0` "counter unsupported" sentinel. -/
def counterAdmissible (stored reported : Nat) : Bool :=
  decide (stored < reported) || (stored == 0 && reported == 0)

/-- Full server-side state threaded through a ceremony: database, challenge
storage and the caller's session. -/
structure ServerState where
  db : Db
  storage : Storage
  session : Option Session
deriving DecidableEq

/-- Input of one authentication ceremony invocation: the optional claimed
identity, the attempt id, the credential id embedded in the assertion, the
outcome of the external signature verification, the counter the verifier
extracts from the authenticator data, the current time, and the I/O outcome of
the counter update performed in `onSuccess`. -/
structure AuthInput where
  userName : Option String
  attemptId : String
  credentialId : String
  assertionValid : Bool
  newCounter : Nat
  now : Nat
  updateErr : Option ApiError
deriving DecidableEq

/-- Modelled from the spec (section 4.5): one authentication ceremony
invocation.  Steps run strictly in order and every failure aborts the
remaining steps; the repository's callbacks (`allowCredentials`,
`getChallenge`, `getCredential`, `onSuccessAuth`) fill in steps 1, the
challenge consumption of step 3, step 2 and steps 4-5 respectively. -/
def authenticateCeremony (st : ServerState) (inp : AuthInput) :
    ServerState × Option ApiError :=
  let step1 : Option ApiError :=
    match inp.userName with
    | none => none
    | some name =>
      match allowCredentials st.db name with
      | .error e => some e
      | .ok _ => none
  match step1 with
  | some e => (st, some e)
  | none =>
    match getChallenge st.storage inp.attemptId with
    | (.error e, storage1) => ({ st with storage := storage1 }, some e)
    | (.ok _, storage1) =>
      let st1 : ServerState := { st with storage := storage1 }
      match getCredential st1.db inp.credentialId with
      | .error e => (st1, some e)
      | .ok credential =>
        if inp.assertionValid = false then (st1, some assertionError)
        else if counterAdmissible credential.counter inp.newCounter = false then
          (st1, some replayDetectedError)
        else
          let r := onSuccessAuth st1.db st1.session credential inp.newCounter inp.now
            inp.updateErr
          ({ st1 with db := r.1, session := r.2.1 }, r.2.2)

/-! ### Register endpoint callbacks (`server/api/webauthn/register.post.ts`) -/

/-- Error thrown by `validateUser` when the claimed email differs from the
active session's email (message spelled as in the source). -/
def identityConflictError : ApiError :=
  { statusCode := 400, message := "Email not matching curent session" }

/-- Modelled from the spec: the `ValidationError` raised when the zod
`z.email()` parse of the claimed identity fails. -/
def validationError : ApiError :=
  { statusCode := 400, message := "ValidationError" }

/-- Modelled from the spec: the `AttestationError` raised when the external
attestation verifier fails. -/
def attestationError : ApiError :=
  { statusCode := 400, message := "AttestationError" }

/-- Truthiness test of `session.user?.email && session.user.email !== userBody.userName`:
there is a session whose user email is non-empty and differs from the claimed
name. -/
def sessionEmailMismatch (session : Option Session) (userName : String) : Bool :=
  match session with
  | none => false
  | some s => s.user.email != "" && s.user.email != userName

/-- Embeds the `validateUser` callback: reject when an active session's email
differs from the claimed one, then parse the claimed name as an email.
`emailValid` is the outcome of the external zod `z.email()` check. -/
def validateUser (session : Option Session) (userName : String)
    (emailValid : Bool) : Except ApiError String :=
  if sessionEmailMismatch session userName then .error identityConflictError
  else if emailValid then .ok userName
  else .error validationError

/-- Credential material reported by the attestation verifier on success:
everything of a credential row except the owning user. -/
structure RegCredential where
  id : String
  publicKey : String
  counter : Nat
  backedUp : Bool
  transports : List String
deriving DecidableEq

/-- Spread of the verified credential with an owning user id, as the register
`onSuccess` builds the row to save. -/
def RegCredential.toCredential (c : RegCredential) (userId : Nat) : Credential :=
  { id := c.id, userId := userId, publicKey := c.publicKey, counter := c.counter,
    backedUp := c.backedUp, transports := c.transports }

/-- Embeds the register `onSuccess` callback: resolve the user by email,
creating one when absent, save the credential, then set the session.  A throw
from `createUser` or `saveCredential` propagates, leaving the session as it
was; a user created before a failing save is not rolled back. -/
def onSuccessRegister (db : Db) (session : Option Session) (userName : String)
    (credential : RegCredential) (now : Nat) :
    Db × Option Session × Option ApiError :=
  let resolved : Except ApiError (User × Db) :=
    match findUserByEmail db userName with
    | some u => .ok (u, db)
    | none => createUser db userName
  match resolved with
  | .error e => (db, session, some e)
  | .ok (dbUser, db1) =>
    match saveCredential db1 (credential.toCredential dbUser.id) with
    | .error e => (db1, session, some e)
    | .ok db2 => (db2, some { user := dbUser, loggedInAt := now }, none)

/-- Input of one registration ceremony invocation: the claimed identity, the
outcome of the zod email check, the outcome of the external attestation
verification, the credential material the verifier reports, and the current
time. -/
structure RegisterInput where
  userName : String
  emailValid : Bool
  attestationValid : Bool
  credential : RegCredential
  now : Nat
deriving DecidableEq

/-- Modelled from the spec (section 4.4): one registration ceremony
invocation.  `validateUser` runs first; the external attestation verification
(which consumes the registration challenge) runs next and aborts before any
persistence on failure; `onSuccessRegister` performs steps 3-5. -/
def registerCeremony (st : ServerState) (inp : RegisterInput) :
    ServerState × Option ApiError :=
  match validateUser st.session inp.userName inp.emailValid with
  | .error e => (st, some e)
  | .ok userName =>
    if inp.attestationValid = false then (st, some attestationError)
    else
      let r := onSuccessRegister st.db st.session userName inp.credential inp.now
      ({ st with db := r.1, session := r.2.1 }, r.2.2)

/-- Number of `users` rows holding a given email. -/
def countUsersWithEmail (db : Db) (email : String) : Nat :=
  (db.users.filter (fun u => u.email == email)).length

/-! ### Helper lemmas about the key-value storage -/

theorem getItem_setItem_self (s : Storage) (k v : String) :
    getItem (setItem s k v) k = some v := by
  simp [getItem, setItem, List.find?]

theorem find?_filter_ne (l : List (String × String)) (k k2 : String) (h : k2 ≠ k) :
    (l.filter (fun p => p.1 != k)).find? (fun p => p.1 == k2)
      = l.find? (fun p => p.1 == k2) := by
  induction l with
  | nil => rfl
  | cons p l ih =>
    by_cases hp : p.1 = k
    · have h2 : (p.1 == k2) = false := by
        simp only [beq_eq_false_iff_ne, ne_eq, hp]
        exact fun e => h e.symm
      rw [List.filter_cons_of_neg (by simp [hp]),
        List.find?_cons_of_neg _ (by simp [h2]), ih]
    · rw [List.filter_cons_of_pos (by simp [hp])]
      by_cases hq : p.1 = k2
      · rw [List.find?_cons_of_pos _ (by simp [hq]),
          List.find?_cons_of_pos _ (by simp [hq])]
      · rw [List.find?_cons_of_neg _ (by simp [hq]),
          List.find?_cons_of_neg _ (by simp [hq]), ih]

theorem getItem_setItem_other (s : Storage) (k k2 v : String) (h : k2 ≠ k) :
    getItem (setItem s k v) k2 = getItem s k2 := by
  unfold getItem setItem
  rw [List.find?_cons_of_neg _ (by simp; exact fun e => h e.symm),
    find?_filter_ne _ _ _ h]

theorem getItem_removeItem_self (s : Storage) (k : String) :
    getItem (removeItem s k) k = none := by
  unfold getItem removeItem
  have hn : (s.filter (fun p => p.1 != k)).find? (fun p => p.1 == k) = none := by
    rw [List.find?_eq_none]
    intro p hp
    have hmem := List.of_mem_filter hp
    simp only [bne_iff_ne, ne_eq, decide_eq_true_eq] at hmem
    simp [hmem]
  rw [hn]
  rfl

theorem getItem_removeItem_other (s : Storage) (k k2 : String) (h : k2 ≠ k) :
    getItem (removeItem s k) k2 = getItem s k2 := by
  unfold getItem removeItem
  rw [find?_filter_ne _ _ _ h]

/-! ### Helper lemmas about the credential registry -/

theorem find?_map_setCounter (l : List Credential) (cid : String) (n : Nat) :
    (l.map (fun c => if c.id == cid then { c with counter := n } else c)).find?
        (fun c => c.id == cid)
      = (l.find? (fun c => c.id == cid)).map (fun c => { c with counter := n }) := by
  induction l with
  | nil => rfl
  | cons c l ih =>
    by_cases h : c.id = cid
    · rw [List.map_cons, List.find?_cons_of_pos _ (by simp [h]),
        List.find?_cons_of_pos _ (by simp [h])]
      simp [h]
    · rw [List.map_cons, List.find?_cons_of_neg _ (by simp [h]),
        List.find?_cons_of_neg _ (by simp [h]), ih]

theorem findCredentialById_update (db : Db) (cid : String) (n : Nat) :
    findCredentialById (updateCredentialCounter db cid n) cid
      = (findCredentialById db cid).map (fun c => { c with counter := n }) := by
  unfold findCredentialById updateCredentialCounter
  exact find?_map_setCounter db.credentials cid n

/-! ### Claim C2: challenge single-use -/

/-- C2: consuming a challenge returns the stored value and deletes the entry in
one logical step; hence a second consume of the same attempt id fails with
`Challenge expired` regardless of what the first caller did with the value, and
a consume for an attempt id that was never issued also fails with
`Challenge expired`. -/
theorem C2_consume_single_use (storage : Storage) (attemptId : String) :
    (∀ v, getItem storage (attemptKey attemptId) = some v → v ≠ "" →
      getChallenge storage attemptId
        = (.ok v, removeItem storage (attemptKey attemptId))) ∧
    (∀ v storage1, getChallenge storage attemptId = (.ok v, storage1) →
      (getChallenge storage1 attemptId).1 = .error challengeExpiredError) ∧
    (getItem storage (attemptKey attemptId) = none →
      (getChallenge storage attemptId).1 = .error challengeExpiredError) := by
  refine ⟨?_, ?_, ?_⟩
  · intro v hv hne
    have hb : (v == "") = false := by simpa using hne
    simp [getChallenge, hv, hb]
  · intro v storage1 h
    have hs : storage1 = removeItem storage (attemptKey attemptId) := by
      simp only [getChallenge] at h
      by_cases hc : (((getItem storage (attemptKey attemptId)).getD "" == "") = true)
      · rw [if_pos hc] at h
        exact Except.noConfusion (congrArg Prod.fst h)
      · rw [if_neg hc] at h
        exact (congrArg Prod.snd h).symm
    subst hs
    simp [getChallenge, getItem_removeItem_self]
  · intro h
    simp [getChallenge, h]

/-- C2 witness: after a successful consume of a stored challenge, the second
consume fails with `Challenge expired`. -/
theorem C2_witness :
    (getChallenge ([] : Storage) "a").1 = .error challengeExpiredError :=
  (C2_consume_single_use [("attempt:a", "ch")] "a").2.1 "ch" [] rfl

/-! ### Claim C8: issue overwrites, corrected for the empty string -/

/-- C8 counterexample: issuing the challenge value `""` after `"c1"` under the
same attempt id makes the subsequent consume fail with `Challenge expired`
instead of returning the last issued value `""`, because `getChallenge` treats
a falsy stored value as missing. -/
theorem C8_counterexample :
    (getChallenge (storeChallenge (storeChallenge [] "c1" "a") "" "a") "a").1
      = .error challengeExpiredError ∧
    (getChallenge (storeChallenge (storeChallenge [] "c1" "a") "" "a") "a").1
      ≠ .ok "" := by
  have h1 : (getChallenge (storeChallenge (storeChallenge [] "c1" "a") "" "a") "a").1
      = .error challengeExpiredError := rfl
  refine ⟨h1, ?_⟩
  intro h
  rw [h1] at h
  exact Except.noConfusion h

/-- C8 amended: issuing challenge value `v1` and then `v2` under the same
attempt id overwrites the first entry, so a subsequent consume returns `v2`
provided `v2` is non-empty (an empty `v2` is treated as a missing challenge,
and the consume fails with `Challenge expired`); issuing touches no storage key
other than the one for that attempt id. -/
theorem C8_issue_overwrites (storage : Storage) (attemptId v1 v2 : String)
    (h : v2 ≠ "") :
    (getChallenge (storeChallenge (storeChallenge storage v1 attemptId) v2 attemptId)
        attemptId).1 = .ok v2 ∧
    ∀ k, k ≠ attemptKey attemptId →
      getItem (storeChallenge (storeChallenge storage v1 attemptId) v2 attemptId) k
        = getItem storage k := by
  constructor
  · have hb : (v2 == "") = false := by simpa using h
    simp [getChallenge, storeChallenge, getItem_setItem_self, hb]
  · intro k hk
    unfold storeChallenge
    rw [getItem_setItem_other _ _ _ _ hk, getItem_setItem_other _ _ _ _ hk]

/-- C8 witness: issuing `c1` then `c2` under attempt id `a` and consuming
returns `c2`. -/
theorem C8_witness :
    (getChallenge (storeChallenge (storeChallenge [] "c1" "a") "c2" "a") "a").1
      = .ok "c2" :=
  (C8_issue_overwrites [] "a" "c1" "c2" (by decide)).1

/-! ### Claim C9: an empty stored challenge behaves as a missing one -/

/-- C9: when the stored challenge value for an attempt id is the empty string,
consuming fails with `Challenge expired`, the entry is removed, and the result
is the same as consuming with no entry at all. -/
theorem C9_empty_challenge_expired (storage : Storage) (attemptId : String)
    (h : getItem storage (attemptKey attemptId) = some "") :
    getChallenge storage attemptId
      = (.error challengeExpiredError, removeItem storage (attemptKey attemptId)) ∧
    getItem (getChallenge storage attemptId).2 (attemptKey attemptId) = none ∧
    (getChallenge storage attemptId).1
      = (getChallenge (removeItem storage (attemptKey attemptId)) attemptId).1 := by
  have h1 : getChallenge storage attemptId
      = (.error challengeExpiredError, removeItem storage (attemptKey attemptId)) := by
    simp [getChallenge, h]
  refine ⟨h1, ?_, ?_⟩
  · rw [h1]
    exact getItem_removeItem_self storage (attemptKey attemptId)
  · rw [h1]
    simp [getChallenge, getItem_removeItem_self]

/-- C9 witness: a stored empty challenge is consumed as expired and removed. -/
theorem C9_witness :
    getChallenge [("attempt:a", "")] "a"
      = (.error challengeExpiredError,
          removeItem [("attempt:a", "")] (attemptKey "a")) :=
  (C9_empty_challenge_expired [("attempt:a", "")] "a" (by decide)).1

/-! ### Shared concrete data for witnesses -/

/-- Example user row. -/
def user0 : User := { id := 1, email := "alice@example.com" }

/-- Example credential row owned by `user0`. -/
def cred0 : Credential :=
  { id := "cred-1", userId := 1, publicKey := "pk", counter := 5, backedUp := false,
    transports := ["internal"] }

/-- Example database holding `user0` and `cred0`. -/
def db0 : Db := { users := [user0], credentials := [cred0], nextUserId := 2 }

/-- Example credential row whose owning user id matches no user. -/
def credOrphan : Credential :=
  { id := "cred-2", userId := 99, publicKey := "pk2", counter := 3, backedUp := true,
    transports := [] }

/-- Example database with a credential pointing at a missing user. -/
def dbOrphan : Db := { users := [user0], credentials := [credOrphan], nextUserId := 2 }

/-! ### More helper lemmas -/

theorem any_of_findCredentialById (db : Db) (cid : String) (c0 : Credential)
    (h : findCredentialById db cid = some c0) :
    db.credentials.any (fun k => k.id == cid) = true := by
  unfold findCredentialById at h
  have hp := List.find?_some h
  have hm := List.mem_of_find?_eq_some h
  rw [List.any_eq_true]
  exact ⟨c0, hm, hp⟩

theorem any_email_false_of_find_none (db : Db) (email : String)
    (h : findUserByEmail db email = none) :
    db.users.any (fun u => u.email == email) = false := by
  unfold findUserByEmail at h
  rw [List.any_eq_false]
  exact List.find?_eq_none.mp h

/-! ### Claim C4: counter update and session establishment are one unit -/

/-- C4: in the authenticate `onSuccess` callback, a failing counter update
aborts the callback with the database and session unchanged (no session is
established), and a fully successful run establishes a session binding the
credential's owning user together with the login timestamp. -/
theorem C4_update_session_unit (db : Db) (session : Option Session)
    (credential : Credential) (n now : Nat) :
    (∀ e : ApiError, onSuccessAuth db session credential n now (some e)
        = (db, session, some e)) ∧
    (∀ u : User,
      findUserById (updateCredentialCounter db credential.id n) credential.userId
          = some u →
      onSuccessAuth db session credential n now none
        = (updateCredentialCounter db credential.id n,
            some { user := u, loggedInAt := now }, none)) := by
  constructor
  · intro e
    rfl
  · intro u hu
    simp [onSuccessAuth, hu]

/-- C4 witness: a successful run on the example database establishes the
session for the credential's owner with the login timestamp. -/
theorem C4_witness :
    onSuccessAuth db0 none cred0 6 7 none
      = (updateCredentialCounter db0 cred0.id 6,
          some { user := user0, loggedInAt := 7 }, none) :=
  (C4_update_session_unit db0 none cred0 6 7).2 user0 (by decide)

/-! ### Claim C10: counter update is not rolled back on a late user failure -/

/-- C10: when the owning user cannot be resolved after the counter update has
been persisted, the authenticate `onSuccess` callback fails with the
`User not found` error and no session is established, while the stored counter
keeps the new value. -/
theorem C10_counter_not_rolled_back (db : Db) (session : Option Session)
    (credential : Credential) (c : Credential) (n now : Nat)
    (hc : findCredentialById db credential.id = some c)
    (hu : findUserById (updateCredentialCounter db credential.id n) credential.userId
        = none) :
    onSuccessAuth db session credential n now none
      = (updateCredentialCounter db credential.id n, session, some userNotFoundError) ∧
    findCredentialById (updateCredentialCounter db credential.id n) credential.id
      = some { c with counter := n } := by
  constructor
  · simp [onSuccessAuth, hu]
  · rw [findCredentialById_update, hc]
    rfl

/-- C10 witness: on the orphan database the counter update persists and the
session stays unset while the callback errors. -/
theorem C10_witness :
    onSuccessAuth dbOrphan none credOrphan 9 7 none
      = (updateCredentialCounter dbOrphan credOrphan.id 9, none,
          some userNotFoundError) :=
  (C10_counter_not_rolled_back dbOrphan none credOrphan credOrphan 9 7
    (by decide) (by decide)).1

/-! ### Claim C5: identity-conflict guard -/

/-- C5: a registration attempted while a session is active for a different
(non-empty) email fails with the identity-conflict error before any
verification or persistence: the entire server state, in particular the user
table, is returned unchanged, so no user is created for the claimed email. -/
theorem C5_identity_conflict (st : ServerState) (inp : RegisterInput) (s : Session)
    (hs : st.session = some s) (hne : s.user.email ≠ "")
    (hdiff : s.user.email ≠ inp.userName) :
    registerCeremony st inp = (st, some identityConflictError) ∧
    (registerCeremony st inp).1.db = st.db := by
  have hb : sessionEmailMismatch st.session inp.userName = true := by
    rw [hs]
    simp [sessionEmailMismatch, hne, hdiff]
  have h1 : registerCeremony st inp = (st, some identityConflictError) := by
    simp [registerCeremony, validateUser, hb]
  exact ⟨h1, by rw [h1]⟩

/-- C5 witness: a session for `alice@example.com` registering as
`other@example.com` fails with the identity-conflict error and leaves the
state unchanged. -/
theorem C5_witness :
    registerCeremony
        { db := db0, storage := [], session := some { user := user0, loggedInAt := 3 } }
        { userName := "other@example.com", emailValid := true,
          attestationValid := true,
          credential := { id := "cred-9", publicKey := "pk9", counter := 0,
                          backedUp := false, transports := [] },
          now := 4 }
      = ({ db := db0, storage := [], session := some { user := user0, loggedInAt := 3 } },
          some identityConflictError) :=
  (C5_identity_conflict _ _ { user := user0, loggedInAt := 3 } rfl
    (by decide) (by decide)).1

/-! ### Claim C7: registration persistence atomicity -/

/-- C7: in the registration ceremony, persistent side effects become visible
only after verification — an identity-validation failure or an attestation
failure returns the state unchanged — and when saving the credential fails with
the conflict error on a duplicate credential id, no session is established. -/
theorem C7_register_atomicity (st : ServerState) (inp : RegisterInput) :
    (∀ e, validateUser st.session inp.userName inp.emailValid = .error e →
      registerCeremony st inp = (st, some e)) ∧
    (validateUser st.session inp.userName inp.emailValid = .ok inp.userName →
      inp.attestationValid = false →
      registerCeremony st inp = (st, some attestationError)) ∧
    (validateUser st.session inp.userName inp.emailValid = .ok inp.userName →
      inp.attestationValid = true →
      (∃ c0, findCredentialById st.db inp.credential.id = some c0) →
      (registerCeremony st inp).1.session = st.session ∧
      (registerCeremony st inp).2 = some conflictError) := by
  refine ⟨?_, ?_, ?_⟩
  · intro e he
    simp [registerCeremony, he]
  · intro hval hatt
    simp [registerCeremony, hval, hatt]
  · intro hval hatt hdup
    obtain ⟨c0, hdup⟩ := hdup
    have hsave : ∀ db1 : Db, db1.credentials = st.db.credentials → ∀ uid,
        saveCredential db1 (inp.credential.toCredential uid) = .error conflictError := by
      intro db1 hcreds uid
      have hany : db1.credentials.any (fun k => k.id == inp.credential.id) = true := by
        rw [hcreds]
        exact any_of_findCredentialById st.db inp.credential.id c0 hdup
      simp [saveCredential, RegCredential.toCredential, hany]
    have hreg :
        (onSuccessRegister st.db st.session inp.userName inp.credential inp.now).2.1
          = st.session ∧
        (onSuccessRegister st.db st.session inp.userName inp.credential inp.now).2.2
          = some conflictError := by
      unfold onSuccessRegister
      cases hfind : findUserByEmail st.db inp.userName with
      | some u =>
        simp [hfind, hsave st.db rfl u.id]
      | none =>
        have hnone := any_email_false_of_find_none st.db inp.userName hfind
        have hs2 := hsave
          { users := st.db.users ++ [{ id := st.db.nextUserId, email := inp.userName }],
            credentials := st.db.credentials, nextUserId := st.db.nextUserId + 1 }
          rfl st.db.nextUserId
        simp [hfind, createUser, hnone, hs2]
    have hc : registerCeremony st inp
        = ({ st with
              db := (onSuccessRegister st.db st.session inp.userName inp.credential
                inp.now).1,
              session := (onSuccessRegister st.db st.session inp.userName
                inp.credential inp.now).2.1 },
            (onSuccessRegister st.db st.session inp.userName inp.credential
              inp.now).2.2) := by
      simp [registerCeremony, hval, hatt]
    rw [hc]
    exact ⟨hreg.1, hreg.2⟩

/-- C7 witness: re-registering the already-stored credential id `cred-1` fails
with the conflict error and establishes no session. -/
theorem C7_witness :
    (registerCeremony { db := db0, storage := [], session := none }
        { userName := "alice@example.com", emailValid := true,
          attestationValid := true,
          credential := { id := "cred-1", publicKey := "pkx", counter := 0,
                          backedUp := false, transports := [] },
          now := 4 }).1.session = none ∧
    (registerCeremony { db := db0, storage := [], session := none }
        { userName := "alice@example.com", emailValid := true,
          attestationValid := true,
          credential := { id := "cred-1", publicKey := "pkx", counter := 0,
                          backedUp := false, transports := [] },
          now := 4 }).2 = some conflictError :=
  (C7_register_atomicity _ _).2.2 rfl rfl ⟨cred0, by decide⟩

/-! ### Claim C3: enumeration resistance, corrected -/

/-- C3 counterexample: with the empty database, the unregistered-identity
failure carries the message `User not found` while the unknown-credential
failure carries the different message `Passkey not associated with a user
account`, so the three failure cases are not all externally indistinguishable
(same status and message) as claimed. -/
theorem C3_counterexample :
    allowCredentials { users := [], credentials := [], nextUserId := 1 }
        "alice@example.com" = .error userNotFoundError ∧
    getCredential { users := [], credentials := [], nextUserId := 1 } "cred-1"
      = .error passkeyNotAssociatedError ∧
    userNotFoundError.message ≠ passkeyNotAssociatedError.message := by
  refine ⟨rfl, rfl, by decide⟩

/-- C3 amended: authenticating with an unregistered identity and with a
registered identity that owns zero credentials produce the identical failure
(status `400`, message `User not found`), so those two cases are
indistinguishable; authenticating with an unknown credential id fails with the
same status `400` but a different message, so it is distinguishable from the
identity failures by message though not by status. -/
theorem C3_enumeration_resistance (db : Db) (email cid : String)
    (h1 : findUserByEmail db email = none ∨
      ∃ u, findUserByEmail db email = some u ∧ findCredentialsByUserId db u.id = [])
    (h2 : findCredentialById db cid = none) :
    allowCredentials db email = .error userNotFoundError ∧
    getCredential db cid = .error passkeyNotAssociatedError ∧
    userNotFoundError.statusCode = passkeyNotAssociatedError.statusCode ∧
    userNotFoundError.message ≠ passkeyNotAssociatedError.message := by
  refine ⟨?_, ?_, rfl, by decide⟩
  · rcases h1 with h | ⟨u, hu, hc⟩
    · simp [allowCredentials, h]
    · simp [allowCredentials, hu, hc]
  · simp [getCredential, h2]

/-- C3 witness: a registered user owning zero credentials fails exactly like an
unregistered one. -/
theorem C3_witness :
    allowCredentials { users := [user0], credentials := [], nextUserId := 2 }
        "alice@example.com" = .error userNotFoundError :=
  (C3_enumeration_resistance
    { users := [user0], credentials := [], nextUserId := 2 }
    "alice@example.com" "nope"
    (Or.inr ⟨user0, by decide, by decide⟩) (by decide)).1

/-! ### Helper lemmas for registration -/

theorem any_id_false_of_find_none (db : Db) (cid : String)
    (h : findCredentialById db cid = none) :
    db.credentials.any (fun k => k.id == cid) = false := by
  unfold findCredentialById at h
  rw [List.any_eq_false]
  exact List.find?_eq_none.mp h

theorem find?_append_none {α : Type} (l1 l2 : List α) (p : α → Bool)
    (h : l1.find? p = none) : (l1 ++ l2).find? p = l2.find? p := by
  induction l1 with
  | nil => rfl
  | cons a l ih =>
    have hpa : ¬ p a = true := List.find?_eq_none.mp h a (List.mem_cons_self a l)
    have htail : l.find? p = none :=
      List.find?_eq_none.mpr
        (fun x hx => List.find?_eq_none.mp h x (List.mem_cons_of_mem a hx))
    rw [List.cons_append, List.find?_cons_of_neg _ hpa, ih htail]

theorem count_pos_of_find?_some (l : List User) (p : User → Bool) (u : User)
    (h : l.find? p = some u) : 0 < (l.filter p).length := by
  have hm := List.mem_of_find?_eq_some h
  have hp := List.find?_some h
  exact List.length_pos.mpr (List.ne_nil_of_mem (List.mem_filter.mpr ⟨hm, hp⟩))

/-- Abbreviation for the database state after appending a credential row,
as a successful `saveCredential` produces it. -/
def withCred (db : Db) (c : Credential) : Db :=
  { db with credentials := db.credentials ++ [c] }

/-- Abbreviation for the user row `createUser` inserts. -/
def newUser (db : Db) (email : String) : User :=
  { id := db.nextUserId, email := email }

/-- Abbreviation for the database state after a successful `createUser`. -/
def withNewUser (db : Db) (email : String) : Db :=
  { db with users := db.users ++ [newUser db email], nextUserId := db.nextUserId + 1 }

/-! ### Claim C6: registration is idempotent at the user level -/

/-- C6: a registration `onSuccess` run whose credential id is fresh succeeds
and leaves exactly one user row for the claimed email — linking to the
existing user when one exists, creating one otherwise — and appends exactly
one credential row, found under the verifier-reported credential id with the
owner's user id and the verifier-reported initial counter. -/
theorem C6_registration_idempotent (db : Db) (session : Option Session)
    (userName : String) (cred : RegCredential) (now : Nat)
    (hfresh : findCredentialById db cred.id = none)
    (huniq : countUsersWithEmail db userName ≤ 1) :
    (onSuccessRegister db session userName cred now).2.2 = none ∧
    countUsersWithEmail (onSuccessRegister db session userName cred now).1 userName
      = 1 ∧
    (onSuccessRegister db session userName cred now).1.credentials.length
      = db.credentials.length + 1 ∧
    ∃ u, findUserByEmail (onSuccessRegister db session userName cred now).1 userName
        = some u ∧
      findCredentialById (onSuccessRegister db session userName cred now).1 cred.id
        = some (cred.toCredential u.id) ∧
      (cred.toCredential u.id).counter = cred.counter := by
  have hany := any_id_false_of_find_none db cred.id hfresh
  have hfresh2 : db.credentials.find? (fun k => k.id == cred.id) = none := hfresh
  cases hfind : findUserByEmail db userName with
  | some u =>
    have hsave : saveCredential db (cred.toCredential u.id)
        = .ok (withCred db (cred.toCredential u.id)) := by
      simp [saveCredential, withCred, RegCredential.toCredential, hany]
    have hrun : onSuccessRegister db session userName cred now
        = (withCred db (cred.toCredential u.id),
            some { user := u, loggedInAt := now }, none) := by
      simp [onSuccessRegister, hfind, hsave]
    rw [hrun]
    have hfind2 : db.users.find? (fun x => x.email == userName) = some u := hfind
    refine ⟨rfl, ?_, by simp [withCred], u, hfind2, ?_, rfl⟩
    · have h1 : (db.users.filter (fun x => x.email == userName)).length ≤ 1 := huniq
      have h2 := count_pos_of_find?_some db.users (fun x => x.email == userName) u hfind2
      show (db.users.filter (fun x => x.email == userName)).length = 1
      omega
    · show (db.credentials ++ [cred.toCredential u.id]).find?
          (fun k => k.id == cred.id) = some (cred.toCredential u.id)
      rw [find?_append_none _ _ _ hfresh2]
      rw [List.find?_cons_of_pos _ (by simp [RegCredential.toCredential])]
  | none =>
    have hnone := any_email_false_of_find_none db userName hfind
    have hcreate : createUser db userName
        = .ok (newUser db userName, withNewUser db userName) := by
      simp [createUser, hnone, newUser, withNewUser]
    have hsave : saveCredential (withNewUser db userName)
          (cred.toCredential (newUser db userName).id)
        = .ok (withCred (withNewUser db userName)
            (cred.toCredential (newUser db userName).id)) := by
      simp [saveCredential, withCred, withNewUser, RegCredential.toCredential, hany]
    have hrun : onSuccessRegister db session userName cred now
        = (withCred (withNewUser db userName)
            (cred.toCredential (newUser db userName).id),
            some { user := newUser db userName, loggedInAt := now }, none) := by
      simp [onSuccessRegister, hfind, hcreate, hsave]
    rw [hrun]
    have hfilnil : db.users.filter (fun x => x.email == userName) = [] := by
      rw [List.filter_eq_nil_iff]
      exact List.find?_eq_none.mp hfind
    have hfindnil : db.users.find? (fun x => x.email == userName) = none := hfind
    refine ⟨rfl, ?_, by simp [withCred, withNewUser], newUser db userName, ?_, ?_, rfl⟩
    · show ((db.users ++ [newUser db userName]).filter
          (fun x => x.email == userName)).length = 1
      rw [List.filter_append, hfilnil]
      simp [newUser]
    · show (db.users ++ [newUser db userName]).find? (fun x => x.email == userName)
        = some (newUser db userName)
      rw [find?_append_none _ _ _ hfindnil]
      rw [List.find?_cons_of_pos _ (by simp [newUser])]
    · show (db.credentials ++ [cred.toCredential (newUser db userName).id]).find?
          (fun k => k.id == cred.id)
        = some (cred.toCredential (newUser db userName).id)
      rw [find?_append_none _ _ _ hfresh2]
      rw [List.find?_cons_of_pos _ (by simp [RegCredential.toCredential])]

/-- C6 witness: registering a fresh credential for the already-registered
`alice@example.com` keeps exactly one user row for that email. -/
theorem C6_witness :
    countUsersWithEmail
      (onSuccessRegister db0 none "alice@example.com"
        { id := "cred-9", publicKey := "pk9", counter := 0, backedUp := false,
          transports := [] } 4).1 "alice@example.com" = 1 :=
  (C6_registration_idempotent db0 none "alice@example.com"
    { id := "cred-9", publicKey := "pk9", counter := 0, backedUp := false,
      transports := [] } 4 (by decide) (by decide)).2.1

/-! ### Helper lemmas for the authentication ceremony -/

theorem counterAdmissible_false (stored reported : Nat)
    (h1 : ¬ stored < reported) (h2 : ¬ (stored = 0 ∧ reported = 0)) :
    counterAdmissible stored reported = false := by
  unfold counterAdmissible
  rw [Bool.or_eq_false_iff, decide_eq_false_iff_not, Bool.and_eq_false_iff]
  refine ⟨h1, ?_⟩
  by_cases hs : stored = 0
  · right
    have : reported ≠ 0 := fun hr => h2 ⟨hs, hr⟩
    simpa using this
  · left
    simpa using hs

theorem counterAdmissible_true_of_lt (stored reported : Nat)
    (h : stored < reported) : counterAdmissible stored reported = true := by
  unfold counterAdmissible
  rw [Bool.or_eq_true_iff]
  exact Or.inl (by simpa using h)

theorem getCredential_ok (db : Db) (cid : String) (c : Credential)
    (h : getCredential db cid = .ok c) :
    findCredentialById db c.id = some c := by
  unfold getCredential at h
  cases hf : findCredentialById db cid with
  | none =>
    rw [hf] at h
    exact Except.noConfusion h
  | some c2 =>
    rw [hf] at h
    have hc : c2 = c := by
      injection h
    subst hc
    have hid : c2.id = cid := by
      have hp := List.find?_some (hf : db.credentials.find? (fun k => k.id == cid) = some c2)
      exact eq_of_beq hp
    rw [hid]
    exact hf

/-! ### Claim C1: counter monotonicity and replay rejection -/

/-- C1: once an authentication ceremony has consumed its challenge, resolved
the stored credential and passed signature verification, a verifier-reported
counter that is neither strictly greater than the stored one nor the
0-on-both-sides sentinel makes the ceremony fail with the replay error,
leaving the database (hence the stored counter) unchanged; a strictly greater
counter makes the ceremony succeed, establish the session, and persist the new
counter on the stored credential. -/
theorem C1_counter_monotonicity (st : ServerState) (inp : AuthInput)
    (c : Credential) (ch : String) (storage1 : Storage)
    (hUser : inp.userName = none)
    (hChal : getChallenge st.storage inp.attemptId = (.ok ch, storage1))
    (hCred : getCredential st.db inp.credentialId = .ok c)
    (hSig : inp.assertionValid = true) :
    (¬ c.counter < inp.newCounter → ¬ (c.counter = 0 ∧ inp.newCounter = 0) →
      authenticateCeremony st inp
        = ({ st with storage := storage1 }, some replayDetectedError)) ∧
    (c.counter < inp.newCounter → inp.updateErr = none →
      ∀ u, findUserById (updateCredentialCounter st.db c.id inp.newCounter)
          c.userId = some u →
      authenticateCeremony st inp
        = ({ st with
              storage := storage1,
              db := updateCredentialCounter st.db c.id inp.newCounter,
              session := some { user := u, loggedInAt := inp.now } }, none) ∧
      findCredentialById (updateCredentialCounter st.db c.id inp.newCounter) c.id
        = some { c with counter := inp.newCounter }) := by
  constructor
  · intro h1 h2
    have hadm := counterAdmissible_false c.counter inp.newCounter h1 h2
    simp [authenticateCeremony, hUser, hChal, hCred, hSig, hadm]
  · intro hlt hupd u hu
    have hadm := counterAdmissible_true_of_lt c.counter inp.newCounter hlt
    constructor
    · simp [authenticateCeremony, hUser, hChal, hCred, hSig, hadm, onSuccessAuth,
        hupd, hu]
    · rw [findCredentialById_update, getCredential_ok st.db inp.credentialId c hCred]
      rfl

/-- C1 witness: with stored counter `5`, an authentication reporting `6`
succeeds, establishes the session and persists counter `6`. -/
theorem C1_witness :
    authenticateCeremony
        { db := db0, storage := [("attempt:a", "ch")], session := none }
        { userName := none, attemptId := "a", credentialId := "cred-1",
          assertionValid := true, newCounter := 6, now := 7, updateErr := none }
      = ({ db := updateCredentialCounter db0 cred0.id 6, storage := [],
            session := some { user := user0, loggedInAt := 7 } }, none) :=
  ((C1_counter_monotonicity
    { db := db0, storage := [("attempt:a", "ch")], session := none }
    { userName := none, attemptId := "a", credentialId := "cred-1",
      assertionValid := true, newCounter := 6, now := 7, updateErr := none }
    cred0 "ch" [] rfl rfl rfl rfl).2 (by decide) rfl user0 (by decide)).1

end Passkeys
